import Mathlib

/-!
# VonMisesLinearHardening

Shallow embedding of
`SRC/material/nD/ASDPlasticMaterial/ConstitutiveModels/VonMisesLinearHardening.h`:
the three constructors of `VonMisesLinearHardening` and its `Print` method.

The header instantiates the template `ASDPlasticMaterial` with component types
(`LinearIsotropic3D_EL`, `VonMises_YF`, `VonMises_PF`, `MaterialInternalVariables`,
`LinearHardeningTensor_EV`, `LinearHardeningScalar_EV`) that are declared in other
headers.  Those types are modelled here as records of what their constructors are
handed; each such definition says so in its doc comment.

C++ references are modelled as symbolic addresses (`Ref`), the implicit `this` of a
constructor as an explicit `Storage` argument.
-/

set_option linter.unusedVariables false

namespace OpenSees

/-! ## Scalars and tensors -/

/-- A C++ `double`, kept as its IEEE-754 binary64 bit pattern.  The constructors only
store and copy doubles, so no arithmetic is needed and copies are bit-for-bit. -/
structure Double where
  bits : Nat
deriving DecidableEq, Repr

namespace Double

/-- The literal `0.0` (also the value of the `int` literal `0` converted to `double`). -/
def zero : Double := ⟨0⟩

/-- Sign bit (bit 63). -/
def sign (x : Double) : Nat := x.bits / 2 ^ 63 % 2

/-- Biased exponent (bits 52..62). -/
def exponent (x : Double) : Nat := x.bits / 2 ^ 52 % 2 ^ 11

/-- Fraction field (bits 0..51). -/
def fraction (x : Double) : Nat := x.bits % 2 ^ 52

/-- IEEE-754 NaN: exponent all ones and a non-zero fraction. -/
def isNaN (x : Double) : Bool := x.exponent == 2047 && x.fraction != 0

/-- IEEE-754 finite value: the exponent is not all ones. -/
def isFinite (x : Double) : Bool := x.exponent != 2047

/-- Sign-magnitude key: ordered like the real value on non-NaN doubles. -/
def key (x : Double) : Int :=
  if x.sign = 0 then ((x.bits % 2 ^ 63 : Nat) : Int) else -((x.bits % 2 ^ 63 : Nat) : Int)

/-- IEEE-754 `<`: false as soon as one operand is NaN. -/
def lt (x y : Double) : Bool := !x.isNaN && !y.isNaN && decide (x.key < y.key)

end Double

/-- A symmetric second-order tensor: six independent components. -/
structure SymTensor where
  xx : Double
  yy : Double
  zz : Double
  xy : Double
  yz : Double
  xz : Double
deriving DecidableEq, Repr

/-- The zero tensor. -/
def SymTensor.zero : SymTensor :=
  ⟨Double.zero, Double.zero, Double.zero, Double.zero, Double.zero, Double.zero⟩

/-! ## References and storage -/

/-- Address of a material instance (the value of `this`). -/
abbrev Addr := Nat

/-- The two data members of `VonMisesLinearHardening` (source lines 128-129). -/
inductive Member where
  | alpha
  | k
deriving DecidableEq, Repr

/-- A C++ reference to a data member of the instance living at `owner`. -/
structure Ref where
  owner : Addr
  member : Member
deriving DecidableEq, Repr

/-- The storage a constructor runs on: `addr` is the value of `this`, `rho` is whatever
the density slot of the base sub-object holds before the base constructor has run
(an indeterminate value in C++). -/
structure Storage where
  addr : Addr
  rho : Double
deriving DecidableEq, Repr

/-- The expression `this->getRho()` evaluated inside a mem-initializer list, that is
before the base sub-object is initialised: it reads the density slot of the raw
storage. -/
def Storage.getRho (self : Storage) : Double := self.rho

/-! ## Component types (declared outside this header) -/

/-- Modelled from the spec: `LinearHardeningTensor_EV` (declared outside this header) is
the tensorial internal variable, a backstress with its own hardening modulus; it holds
its current value (six components) and the kinematic-hardening modulus. -/
structure LinearHardeningTensor_EV where
  value : SymTensor
  H : Double
deriving DecidableEq, Repr

/-- Modelled from the spec: the constructor `LinearHardeningTensor_EV(H)` keeps the
modulus it is handed and starts the variable at the ground state (zero). -/
def LinearHardeningTensor_EV.ctor (H_in : Double) : LinearHardeningTensor_EV :=
  { value := SymTensor.zero, H := H_in }

/-- Modelled from the spec: `LinearHardeningScalar_EV` (declared outside this header) is
the scalar internal variable; it holds its current value, the isotropic-hardening
modulus and the initial yield threshold. -/
structure LinearHardeningScalar_EV where
  value : Double
  H : Double
  k0 : Double
deriving DecidableEq, Repr

/-- Modelled from the spec: the constructor `LinearHardeningScalar_EV(H, k0)` keeps the
modulus and the initial threshold in the order the header passes them (`k(H_k, k0_in)`)
and starts the variable at the ground state (zero). -/
def LinearHardeningScalar_EV.ctor (H_in k0_in : Double) : LinearHardeningScalar_EV :=
  { value := Double.zero, H := H_in, k0 := k0_in }

/-- Modelled from the spec: `LinearIsotropic3D_EL` (declared outside this header) is the
linear-isotropic elasticity law, fixed by elastic modulus and Poisson ratio. -/
structure LinearIsotropic3D_EL where
  E : Double
  nu : Double
deriving DecidableEq, Repr

/-- Modelled from the spec: the constructor `LinearIsotropic3D_EL(E, nu)`. -/
def LinearIsotropic3D_EL.ctor (E nu : Double) : LinearIsotropic3D_EL :=
  { E := E, nu := nu }

/-- The implicit copy constructor `LinearIsotropic3D_EL(el)`: member-wise copy. -/
def LinearIsotropic3D_EL.copy (el : LinearIsotropic3D_EL) : LinearIsotropic3D_EL :=
  { E := el.E, nu := el.nu }

/-- Modelled from the spec: `VonMises_YF` (declared outside this header) is a yield
function that reads, but does not own, the internal variables: it holds references to
the two variables it was pointed to. -/
structure VonMises_YF where
  alpha : Ref
  k : Ref
deriving DecidableEq, Repr

/-- Modelled from the spec: the constructor `VonMises_YF(alpha, k)` binds the two
references. -/
def VonMises_YF.ctor (alpha_in k_in : Ref) : VonMises_YF :=
  { alpha := alpha_in, k := k_in }

/-- Modelled from the spec: `VonMises_PF` (declared outside this header) is a plastic-flow
function that reads, but does not own, the internal variables. -/
structure VonMises_PF where
  alpha : Ref
  k : Ref
deriving DecidableEq, Repr

/-- Modelled from the spec: the constructor `VonMises_PF(alpha, k)` binds the two
references. -/
def VonMises_PF.ctor (alpha_in k_in : Ref) : VonMises_PF :=
  { alpha := alpha_in, k := k_in }

/-- Modelled from the spec: `MaterialInternalVariables` (declared outside this header) is
the list of internal variables of a material, given by reference. -/
structure MaterialInternalVariables where
  alpha : Ref
  k : Ref
deriving DecidableEq, Repr

/-- Modelled from the spec: the constructor `MaterialInternalVariables(alpha, k)`. -/
def MaterialInternalVariables.ctor (alpha_in k_in : Ref) : MaterialInternalVariables :=
  { alpha := alpha_in, k := k_in }

/-- Typedef at source line 43. -/
abbrev VMLHVarsType := MaterialInternalVariables

/-- Typedef at source line 44. -/
abbrev VMLH_YFType := VonMises_YF

/-- Typedef at source line 45. -/
abbrev VMLH_PFType := VonMises_PF

/-- Modelled from the spec: the base class `ASDPlasticMaterial` (declared outside this
header) is the material state: tag, density, initial confinement, the four components
handed to its constructor, and the committed stress and strain. -/
structure ASDPlasticMaterial where
  tag : Int
  rho : Double
  p0 : Double
  yf : VMLH_YFType
  el : LinearIsotropic3D_EL
  pf : VMLH_PFType
  vars : VMLHVarsType
  stress : SymTensor
  strain : SymTensor
deriving DecidableEq, Repr

/-- Modelled from the spec: the base constructor
`ASDPlasticMaterial(tag, rho, p0, yf, el, pf, vars)` keeps its arguments and creates the
state in the ground state (zero stress and strain). -/
def ASDPlasticMaterial.ctor (tag : Int) (rho_in p0 : Double) (yf_in : VMLH_YFType)
    (el_in : LinearIsotropic3D_EL) (pf_in : VMLH_PFType) (vars_in : VMLHVarsType) :
    ASDPlasticMaterial :=
  { tag := tag, rho := rho_in, p0 := p0, yf := yf_in, el := el_in, pf := pf_in,
    vars := vars_in, stress := SymTensor.zero, strain := SymTensor.zero }

/-- Typedef at source lines 48-53. -/
abbrev VMLHBase := ASDPlasticMaterial

/-- Modelled from the spec: accessor `getTag()` of the base. -/
def ASDPlasticMaterial.getTag (m : ASDPlasticMaterial) : Int := m.tag

/-- Modelled from the spec: accessor `getRho()` of the base, on a constructed object. -/
def ASDPlasticMaterial.getRho (m : ASDPlasticMaterial) : Double := m.rho

/-! ## The class `VonMisesLinearHardening` -/

/-- The class at source lines 59-131: the base sub-object and the two state variables
`alpha` (backstress) and `k`. -/
structure VonMisesLinearHardening extends VMLHBase where
  alpha : LinearHardeningTensor_EV
  k : LinearHardeningScalar_EV
deriving DecidableEq, Repr

namespace VonMisesLinearHardening

/-- The expression `alpha` inside a constructor of the instance at `self`: a reference
to that instance's own member. -/
def alphaRef (self : Storage) : Ref := { owner := self.addr, member := Member.alpha }

/-- The expression `k` inside a constructor of the instance at `self`. -/
def kRef (self : Storage) : Ref := { owner := self.addr, member := Member.k }

/-- First constructor (source lines 64-83).  The body only writes its arguments and the
yield value to `cout`; it assigns nothing, so the object is fixed by the initializer
list. -/
def firstCtor (self : Storage) (tag_in : Int) (k0_in H_alpha H_k E nu rho_ : Double) :
    VonMisesLinearHardening :=
  { toASDPlasticMaterial :=
      ASDPlasticMaterial.ctor tag_in rho_ Double.zero
        (VonMises_YF.ctor (alphaRef self) (kRef self))
        (LinearIsotropic3D_EL.ctor E nu)
        (VonMises_PF.ctor (alphaRef self) (kRef self))
        (MaterialInternalVariables.ctor (alphaRef self) (kRef self)),
    alpha := LinearHardeningTensor_EV.ctor H_alpha,
    k := LinearHardeningScalar_EV.ctor H_k k0_in }

/-- Second constructor (source lines 88-100), called when a copy is made.  The base is
handed `this->getRho()`, not the parameter `rho`; the parameters `yf`, `pf` and `vars`
are not used. -/
def secondCtor (self : Storage) (tag_in : Int) (rho p0 : Double) (yf : VMLH_YFType)
    (el : LinearIsotropic3D_EL) (pf : VMLH_PFType) (vars : VMLHVarsType) :
    VonMisesLinearHardening :=
  { toASDPlasticMaterial :=
      ASDPlasticMaterial.ctor tag_in self.getRho p0
        (VonMises_YF.ctor (alphaRef self) (kRef self))
        (LinearIsotropic3D_EL.copy el)
        (VonMises_PF.ctor (alphaRef self) (kRef self))
        (MaterialInternalVariables.ctor (alphaRef self) (kRef self)),
    alpha := LinearHardeningTensor_EV.ctor Double.zero,
    k := LinearHardeningScalar_EV.ctor Double.zero Double.zero }

/-- Default constructor (source lines 102-110). -/
def defaultCtor (self : Storage) : VonMisesLinearHardening :=
  { toASDPlasticMaterial :=
      ASDPlasticMaterial.ctor 0 Double.zero Double.zero
        (VonMises_YF.ctor (alphaRef self) (kRef self))
        (LinearIsotropic3D_EL.ctor Double.zero Double.zero)
        (VonMises_PF.ctor (alphaRef self) (kRef self))
        (MaterialInternalVariables.ctor (alphaRef self) (kRef self)),
    alpha := LinearHardeningTensor_EV.ctor Double.zero,
    k := LinearHardeningScalar_EV.ctor Double.zero Double.zero }

/-- The references held by the three components handed to the base: yield function,
plastic-flow function and internal-variable list, in that order. -/
def componentRefs (m : VonMisesLinearHardening) : List Ref :=
  [m.yf.alpha, m.yf.k, m.pf.alpha, m.pf.k, m.vars.alpha, m.vars.k]

/-- The only failure a construction could report. -/
inductive ConstructionError where
  | configuration
deriving DecidableEq, Repr

/-- Outcome of running the first constructor on an argument list.  Neither the
initializer list nor the body (source lines 64-83) tests an argument or throws, so the
outcome is always the constructed object. -/
def construct (self : Storage) (tag_in : Int) (k0_in H_alpha H_k E nu rho_ : Double) :
    Except ConstructionError VonMisesLinearHardening :=
  Except.ok (firstCtor self tag_in k0_in H_alpha H_k E nu rho_)

/-- Outcome of running the default constructor (source lines 102-110): it hands
`LinearIsotropic3D_EL(0, 0)` to the base and has an empty body. -/
def constructDefault (self : Storage) : Except ConstructionError VonMisesLinearHardening :=
  Except.ok (defaultCtor self)

/-- The references behind the `yf`, `pf` and `vars` arguments of the second
constructor. -/
def argumentRefs (yf : VMLH_YFType) (pf : VMLH_PFType) (vars : VMLHVarsType) : List Ref :=
  [yf.alpha, yf.k, pf.alpha, pf.k, vars.alpha, vars.k]

end VonMisesLinearHardening

/-! ## Printing -/

/-- Modelled from the spec: `OPS_Stream` (declared outside this header) is the target of
diagnostic text; it is kept as the text written to it so far. -/
structure OPS_Stream where
  text : String
deriving DecidableEq, Repr

/-- The operator `s << "..."` on a string literal. -/
def OPS_Stream.putString (s : OPS_Stream) (t : String) : OPS_Stream :=
  { text := s.text ++ t }

/-- The operator `s << n` on an `int`: decimal digits, with a leading minus sign when
negative. -/
def OPS_Stream.putInt (s : OPS_Stream) (n : Int) : OPS_Stream :=
  { text := s.text ++ toString n }

/-- The manipulator `endln`: a line break. -/
def endln : String := "\n"

/-- The method `Print` (source lines 112-122).  It is not `const`, so the object is
returned along with the stream. -/
def VonMisesLinearHardening.Print (m : VonMisesLinearHardening) (s : OPS_Stream)
    (flag : Int) : VonMisesLinearHardening × OPS_Stream :=
  let s1 := (s.putString "VonMisesLinearHardening::").putString endln
  let s2 := ((s1.putString "\tTag: ").putInt m.getTag).putString endln
  let s3 := (s2.putString " Please Implement Me !!! ").putString endln
  (m, s3)

/-! ## A concrete material and its copy -/

/-- The double `30000.0`. -/
def E30000 : Double := ⟨0x40DD4C0000000000⟩

/-- The double `0.25`. -/
def nu025 : Double := ⟨0x3FD0000000000000⟩

/-- The double `1.0`. -/
def rho1 : Double := ⟨0x3FF0000000000000⟩

/-- The double `10.0`. -/
def k010 : Double := ⟨0x4024000000000000⟩

/-- The double `1000.0`. -/
def H1000 : Double := ⟨0x408F400000000000⟩

/-- A quiet NaN. -/
def quietNaN : Double := ⟨0x7FF8000000000000⟩

/-- The material `VonMisesLinearHardening(1, 10.0, 0.0, 1000.0, 30000.0, 0.25, 1.0)`,
constructed at address 1. -/
def sampleMaterial : VonMisesLinearHardening :=
  VonMisesLinearHardening.firstCtor ⟨1, Double.zero⟩ 1 k010 Double.zero H1000 E30000 nu025 rho1

/-- The second constructor run at address 2, on storage whose density slot holds the bit
pattern of `0.0`, with the tag, density, confinement and components of
`sampleMaterial` as arguments. -/
def sampleCopy : VonMisesLinearHardening :=
  VonMisesLinearHardening.secondCtor ⟨2, Double.zero⟩ sampleMaterial.getTag
    sampleMaterial.getRho sampleMaterial.p0 sampleMaterial.yf sampleMaterial.el
    sampleMaterial.pf sampleMaterial.vars

end OpenSees

/-! ## Theorems -/

namespace OpenSees

open VonMisesLinearHardening

/-- The second constructor stores the content of the raw density slot, whatever its
`rho` argument is. -/
theorem secondCtor_rho_eq_slot (self : Storage) (tag_in : Int) (rho p0 : Double)
    (yf : VMLH_YFType) (el : LinearIsotropic3D_EL) (pf : VMLH_PFType) (vars : VMLHVarsType) :
    (secondCtor self tag_in rho p0 yf el pf vars).getRho = self.rho := rfl

/-- C1, counterexample: the copy of `sampleMaterial` made by the second constructor has
isotropic-hardening modulus 0 and initial threshold 0 where the original has 1000 and 10,
so its scalar internal variable is not the original's. -/
theorem secondCtor_drops_hardening_parameters :
    sampleMaterial.k.H = H1000 ∧ sampleMaterial.k.k0 = k010 ∧
    sampleCopy.k.H = Double.zero ∧ sampleCopy.k.k0 = Double.zero ∧
    ¬ (sampleCopy.alpha = sampleMaterial.alpha ∧ sampleCopy.k = sampleMaterial.k) := by
  decide

/-- C1, amended: whatever components the second constructor is handed, the instance it
produces has `alpha` initialised by `LinearHardeningTensor_EV(0)` and `k` by
`LinearHardeningScalar_EV(0, 0)`; the copy made from the components of a material `m`
therefore reproduces the internal variables of `m` exactly when those are themselves in
that zero-initialised state. -/
theorem secondCtor_internal_variables (self : Storage) (tag_in : Int) (rho p0 : Double)
    (yf : VMLH_YFType) (el : LinearIsotropic3D_EL) (pf : VMLH_PFType) (vars : VMLHVarsType)
    (m : VonMisesLinearHardening) :
    (secondCtor self tag_in rho p0 yf el pf vars).alpha
        = LinearHardeningTensor_EV.ctor Double.zero ∧
    (secondCtor self tag_in rho p0 yf el pf vars).k
        = LinearHardeningScalar_EV.ctor Double.zero Double.zero ∧
    (((secondCtor self m.getTag m.getRho m.p0 m.yf m.el m.pf m.vars).alpha = m.alpha ∧
      (secondCtor self m.getTag m.getRho m.p0 m.yf m.el m.pf m.vars).k = m.k) ↔
      (m.alpha = LinearHardeningTensor_EV.ctor Double.zero ∧
       m.k = LinearHardeningScalar_EV.ctor Double.zero Double.zero)) := by
  refine ⟨rfl, rfl, ?_⟩
  constructor
  · rintro ⟨h1, h2⟩
    exact ⟨h1.symm, h2.symm⟩
  · rintro ⟨h1, h2⟩
    exact ⟨h1.symm, h2.symm⟩

/-- C2, the code at the failing input: the second constructor is handed the density
`1.0` of `sampleMaterial`, yet the density stored in `sampleCopy` is the content of the
raw density slot (here the bit pattern of `0.0`), which differs from `1.0`. -/
theorem secondCtor_density_not_argument :
    sampleMaterial.getRho = rho1 ∧ sampleCopy.getRho = Double.zero ∧
    sampleCopy.getRho ≠ sampleMaterial.getRho := by
  decide

/-- C3: the material built by the second constructor has tag `tag_in`, initial
confinement `p0`, and an elasticity law that is a copy of `el`, with the same elastic
modulus and Poisson ratio. -/
theorem secondCtor_tag_confinement_elasticity (self : Storage) (tag_in : Int)
    (rho p0 : Double) (yf : VMLH_YFType) (el : LinearIsotropic3D_EL) (pf : VMLH_PFType)
    (vars : VMLHVarsType) :
    (secondCtor self tag_in rho p0 yf el pf vars).getTag = tag_in ∧
    (secondCtor self tag_in rho p0 yf el pf vars).p0 = p0 ∧
    (secondCtor self tag_in rho p0 yf el pf vars).el = LinearIsotropic3D_EL.copy el ∧
    (secondCtor self tag_in rho p0 yf el pf vars).el = el ∧
    (secondCtor self tag_in rho p0 yf el pf vars).el.E = el.E ∧
    (secondCtor self tag_in rho p0 yf el pf vars).el.nu = el.nu :=
  ⟨rfl, rfl, rfl, rfl, rfl, rfl⟩

/-- C4: the material built by the first constructor has tag `tag_in`, density `rho_`,
initial confinement 0, the elasticity law `LinearIsotropic3D_EL(E, nu)`, a backstress
whose modulus is `H_alpha`, and a scalar variable whose modulus is `H_k` and whose
initial threshold is `k0_in`. -/
theorem firstCtor_parameters (self : Storage) (tag_in : Int)
    (k0_in H_alpha H_k E nu rho_ : Double) :
    (firstCtor self tag_in k0_in H_alpha H_k E nu rho_).getTag = tag_in ∧
    (firstCtor self tag_in k0_in H_alpha H_k E nu rho_).getRho = rho_ ∧
    (firstCtor self tag_in k0_in H_alpha H_k E nu rho_).p0 = Double.zero ∧
    (firstCtor self tag_in k0_in H_alpha H_k E nu rho_).el = LinearIsotropic3D_EL.ctor E nu ∧
    (firstCtor self tag_in k0_in H_alpha H_k E nu rho_).el.E = E ∧
    (firstCtor self tag_in k0_in H_alpha H_k E nu rho_).el.nu = nu ∧
    (firstCtor self tag_in k0_in H_alpha H_k E nu rho_).alpha.H = H_alpha ∧
    (firstCtor self tag_in k0_in H_alpha H_k E nu rho_).k.H = H_k ∧
    (firstCtor self tag_in k0_in H_alpha H_k E nu rho_).k.k0 = k0_in :=
  ⟨rfl, rfl, rfl, rfl, rfl, rfl, rfl, rfl, rfl⟩

/-- C5, counterexample: with elastic modulus `0.0` (finite, and not greater than zero)
the first constructor completes with a material and raises no configuration error; so
does the default constructor, which supplies elastic modulus 0 and Poisson ratio 0; so
does the first constructor handed a NaN density. -/
theorem construct_accepts_invalid_parameters :
    Double.lt Double.zero Double.zero = false ∧
    construct ⟨1, Double.zero⟩ 1 k010 Double.zero H1000 Double.zero nu025 rho1
      = Except.ok (firstCtor ⟨1, Double.zero⟩ 1 k010 Double.zero H1000 Double.zero nu025 rho1) ∧
    construct ⟨1, Double.zero⟩ 1 k010 Double.zero H1000 Double.zero nu025 rho1
      ≠ Except.error ConstructionError.configuration ∧
    (defaultCtor ⟨1, Double.zero⟩).el = LinearIsotropic3D_EL.ctor Double.zero Double.zero ∧
    constructDefault ⟨1, Double.zero⟩ = Except.ok (defaultCtor ⟨1, Double.zero⟩) ∧
    constructDefault ⟨1, Double.zero⟩ ≠ Except.error ConstructionError.configuration ∧
    quietNaN.isFinite = false ∧
    construct ⟨1, Double.zero⟩ 1 k010 Double.zero H1000 E30000 nu025 quietNaN
      ≠ Except.error ConstructionError.configuration := by
  refine ⟨by decide, rfl, ?_, rfl, rfl, ?_, by decide, ?_⟩
  · intro h
    cases h
  · intro h
    cases h
  · intro h
    cases h

/-- C5, amended: for every argument list, valid or not, the first constructor completes
with the material whose fields are the arguments as handed over (in particular the
elastic modulus and Poisson ratio are stored unchecked), and the default constructor
completes with a material of elastic modulus 0 and Poisson ratio 0; neither raises an
error. -/
theorem construct_never_raises (self : Storage) (tag_in : Int)
    (k0_in H_alpha H_k E nu rho_ : Double) (e : ConstructionError) :
    construct self tag_in k0_in H_alpha H_k E nu rho_
      = Except.ok (firstCtor self tag_in k0_in H_alpha H_k E nu rho_) ∧
    construct self tag_in k0_in H_alpha H_k E nu rho_ ≠ Except.error e ∧
    (firstCtor self tag_in k0_in H_alpha H_k E nu rho_).el.E = E ∧
    (firstCtor self tag_in k0_in H_alpha H_k E nu rho_).el.nu = nu ∧
    constructDefault self = Except.ok (defaultCtor self) ∧
    constructDefault self ≠ Except.error e ∧
    (defaultCtor self).el.E = Double.zero ∧
    (defaultCtor self).el.nu = Double.zero := by
  refine ⟨rfl, ?_, rfl, rfl, rfl, ?_, rfl, rfl⟩
  · intro h
    cases h
  · intro h
    cases h

/-- C6: each of the three constructors, run on the instance at `self`, hands the base a
yield function, a plastic-flow function and an internal-variable list that are all bound
to the `alpha` and `k` members of that same instance; every reference they hold is owned
by `self`; and when the `yf`, `pf` and `vars` arguments of the second constructor are
bound to the variables of other instances, the copy shares no reference with them. -/
theorem constructors_bind_own_members (self : Storage) (tag_in : Int)
    (k0_in H_alpha H_k E nu rho_ rho p0 : Double) (yf : VMLH_YFType)
    (el : LinearIsotropic3D_EL) (pf : VMLH_PFType) (vars : VMLHVarsType)
    (h : ∀ r ∈ argumentRefs yf pf vars, r.owner ≠ self.addr) :
    componentRefs (firstCtor self tag_in k0_in H_alpha H_k E nu rho_)
      = [alphaRef self, kRef self, alphaRef self, kRef self, alphaRef self, kRef self] ∧
    componentRefs (secondCtor self tag_in rho p0 yf el pf vars)
      = [alphaRef self, kRef self, alphaRef self, kRef self, alphaRef self, kRef self] ∧
    componentRefs (defaultCtor self)
      = [alphaRef self, kRef self, alphaRef self, kRef self, alphaRef self, kRef self] ∧
    (∀ r ∈ componentRefs (firstCtor self tag_in k0_in H_alpha H_k E nu rho_),
      r.owner = self.addr) ∧
    (∀ r ∈ componentRefs (secondCtor self tag_in rho p0 yf el pf vars),
      r.owner = self.addr) ∧
    (∀ r ∈ componentRefs (defaultCtor self), r.owner = self.addr) ∧
    (∀ r ∈ componentRefs (secondCtor self tag_in rho p0 yf el pf vars),
      r ∉ argumentRefs yf pf vars) := by
  have own : ∀ r ∈ [alphaRef self, kRef self, alphaRef self, kRef self, alphaRef self,
      kRef self], r.owner = self.addr := by
    intro r hr
    simp only [List.mem_cons, List.mem_singleton, List.not_mem_nil, or_false] at hr
    rcases hr with hr | hr | hr | hr | hr | hr <;> subst hr <;> rfl
  refine ⟨rfl, rfl, rfl, own, own, own, ?_⟩
  intro r hr hmem
  exact h r hmem (own r hr)

/-- C6, witness: the copy at address 2 made from the components of `sampleMaterial`,
which lives at address 1. -/
theorem constructors_bind_own_members_witness :
    (∀ r ∈ argumentRefs sampleMaterial.yf sampleMaterial.pf sampleMaterial.vars,
      r.owner ≠ (⟨2, Double.zero⟩ : Storage).addr) ∧
    (∀ r ∈ componentRefs (secondCtor ⟨2, Double.zero⟩ 1 rho1 Double.zero sampleMaterial.yf
        sampleMaterial.el sampleMaterial.pf sampleMaterial.vars),
      r ∉ argumentRefs sampleMaterial.yf sampleMaterial.pf sampleMaterial.vars) :=
  ⟨by decide,
   (constructors_bind_own_members ⟨2, Double.zero⟩ 1 k010 Double.zero H1000 E30000 nu025
      rho1 rho1 Double.zero sampleMaterial.yf sampleMaterial.el sampleMaterial.pf
      sampleMaterial.vars (by decide)).2.2.2.2.2.2⟩

/-- C8: the material created by the first constructor is in the ground state: the
tensorial variable `alpha` and the scalar variable `k` start at zero, and so do the
stress and the strain. -/
theorem firstCtor_ground_state (self : Storage) (tag_in : Int)
    (k0_in H_alpha H_k E nu rho_ : Double) :
    (firstCtor self tag_in k0_in H_alpha H_k E nu rho_).alpha.value = SymTensor.zero ∧
    (firstCtor self tag_in k0_in H_alpha H_k E nu rho_).k.value = Double.zero ∧
    (firstCtor self tag_in k0_in H_alpha H_k E nu rho_).stress = SymTensor.zero ∧
    (firstCtor self tag_in k0_in H_alpha H_k E nu rho_).strain = SymTensor.zero :=
  ⟨rfl, rfl, rfl, rfl⟩

/-- C10: `Print` returns the material unchanged (so its tag, density, elastic
parameters, `alpha` and `k` are what they were); the stream receives, after what it
already held, the header line, the tag line with the tag of the material, and the
placeholder line; and the outcome is the same for every flag. -/
theorem Print_frame (m : VonMisesLinearHardening) (s : OPS_Stream) (flag flag2 : Int) :
    (m.Print s flag).1 = m ∧
    (m.Print s flag).2.text
      = s.text ++ ("VonMisesLinearHardening::\n" ++
          ("\tTag: " ++ toString m.tag ++ "\n") ++ " Please Implement Me !!! \n") ∧
    m.Print s flag2 = m.Print s flag := by
  refine ⟨rfl, ?_, rfl⟩
  simp only [VonMisesLinearHardening.Print, OPS_Stream.putString, OPS_Stream.putInt, endln,
    ASDPlasticMaterial.getTag, String.append_assoc]
  rfl

end OpenSees
